import Mathlib

/-!
Formal model of the run-orchestration core of withings-sync-ui.

The definitions below are a shallow embedding of the backend services:

* `RunService` (src/backend/src/services/RunService.ts) — the Run Ledger:
  a durable table of `SyncRun` rows plus the in-memory
  `runningProfileIds` guard set.  Database access through prisma is
  modelled as a plain list of rows; thrown JS `Error`s are modelled with
  `Except RunServiceError`.  Timestamps (`new Date()`) are modelled as
  integer milliseconds passed in explicitly.  Logging side effects are
  not modelled; the `runLogLevels` bookkeeping map is omitted because no
  operation's control flow depends on it.
* `SchedulerService` — cron scheduling with random `?` placeholders.
* `WithingsSyncRunner` — CLI argument construction, unattended
  execution, and the interactive-process registry.
* `WebSocketHandler.handleConnectionClose` — session detach.
-/

deriving instance DecidableEq for Except

namespace WithingsSyncUI

/-- Run status, from src/backend/src/types/enums (RunStatus). -/
inductive RunStatus where
  | PENDING
  | RUNNING
  | SUCCESS
  | FAILED
  deriving DecidableEq, Repr

/-- Run mode, from src/backend/src/types/enums (RunMode). -/
inductive RunMode where
  | MANUAL
  | CRON
  deriving DecidableEq, Repr

/-- One row of the `SyncRun` table (prisma schema).  `startedAt` is
NOT NULL with default CURRENT_TIMESTAMP, so it is always present. -/
structure SyncRun where
  id : String
  syncProfileId : String
  mode : RunMode
  status : RunStatus
  startedAt : Int
  finishedAt : Option Int := none
  exitCode : Option Int := none
  errorMessage : Option String := none
  logFilePath : Option String := none
  deriving DecidableEq, Repr

/-- The state owned by `RunService`: the SyncRun table plus the
in-memory guard set `runningProfileIds`. -/
structure RunServiceState where
  runs : List SyncRun
  runningProfileIds : List String
  deriving DecidableEq, Repr

/-- The errors `RunService` throws (JS `Error` objects, distinguished by
their message text). -/
inductive RunServiceError where
  | runNotFound (id : String)
  | alreadyRunning (profileId : String)
  | cannotCancel (id : String) (status : RunStatus)
  deriving DecidableEq, Repr

/-- Printable status, as interpolated into thrown error messages. -/
def statusToString : RunStatus → String
  | .PENDING => "PENDING"
  | .RUNNING => "RUNNING"
  | .SUCCESS => "SUCCESS"
  | .FAILED => "FAILED"

/-- The message text of each thrown error, as built in RunService.ts. -/
def runServiceErrorMessage : RunServiceError → String
  | .runNotFound id => "Run " ++ id ++ " not found"
  | .alreadyRunning profileId => "Profile " ++ profileId ++ " is already running"
  | .cannotCancel id status =>
      "Cannot cancel run " ++ id ++ ": status is " ++ statusToString status

/-- Lookup of a run row by id (prisma findUnique on the primary key). -/
def findRun (runs : List SyncRun) (id : String) : Option SyncRun :=
  match runs with
  | [] => none
  | r :: rest => if r.id == id then some r else findRun rest id

/-- RunService.getRunById. -/
def getRunById (st : RunServiceState) (id : String) : Option SyncRun :=
  findRun st.runs id

/-- Replace the row with the given id (prisma update on the primary key;
ids are a primary key so at most one row matches). -/
def setRunRow (runs : List SyncRun) (id : String) (upd : SyncRun) : List SyncRun :=
  runs.map (fun r => if r.id == id then upd else r)

/-- JS `Set.add` on the guard set. -/
def guardAdd (s : List String) (x : String) : List String :=
  if s.contains x then s else x :: s

/-- JS `Set.delete` on the guard set. -/
def guardDelete (s : List String) (x : String) : List String :=
  s.filter (fun y => y != x)

/-- RunService.createRun: inserts a fresh PENDING row.  `startedAt`
takes the database default CURRENT_TIMESTAMP (`now`). -/
def createRun (st : RunServiceState) (newId syncProfileId : String)
    (mode : RunMode) (now : Int) : SyncRun × RunServiceState :=
  let run : SyncRun :=
    { id := newId, syncProfileId := syncProfileId, mode := mode,
      status := .PENDING, startedAt := now }
  (run, { st with runs := st.runs ++ [run] })

/-- RunService.startRun: loads the run, throws `AlreadyRunning` when the
guard set already holds the profile, otherwise adds the profile to the
guard set and sets the row RUNNING with a fresh `startedAt`.  All
mutations happen after the checks, so the thrown-error paths leave the
state unchanged. -/
def startRun (st : RunServiceState) (id : String) (now : Int) :
    Except RunServiceError (SyncRun × RunServiceState) :=
  match getRunById st id with
  | none => .error (.runNotFound id)
  | some run =>
    if st.runningProfileIds.contains run.syncProfileId then
      .error (.alreadyRunning run.syncProfileId)
    else
      let updated := { run with status := .RUNNING, startedAt := now }
      .ok (updated,
        { runs := setRunRow st.runs id updated,
          runningProfileIds := guardAdd st.runningProfileIds run.syncProfileId })

/-- The partial update record accepted by RunService.updateRun; a field
that is `none` (JS `undefined`) is left unchanged by prisma. -/
structure UpdateRunData where
  status : Option RunStatus := none
  exitCode : Option Int := none
  logFilePath : Option String := none
  errorMessage : Option String := none
  finishedAt : Option Int := none
  deriving DecidableEq, Repr

/-- Apply an `UpdateRunData` to a row, prisma-style (absent fields keep
their old values). -/
def applyRunUpdate (r : SyncRun) (d : UpdateRunData) : SyncRun :=
  { r with
    status := d.status.getD r.status,
    exitCode := match d.exitCode with | some c => some c | none => r.exitCode,
    logFilePath := match d.logFilePath with | some p => some p | none => r.logFilePath,
    errorMessage := match d.errorMessage with | some m => some m | none => r.errorMessage,
    finishedAt := match d.finishedAt with | some t => some t | none => r.finishedAt }

/-- RunService.updateRun: unconditional prisma update of one row. -/
def updateRun (st : RunServiceState) (id : String) (d : UpdateRunData) :
    Except RunServiceError (SyncRun × RunServiceState) :=
  match getRunById st id with
  | none => .error (.runNotFound id)
  | some run =>
    let updated := applyRunUpdate run d
    .ok (updated, { st with runs := setRunRow st.runs id updated })

/-- RunService.completeRun: loads the run, unconditionally deletes the
profile from the guard set, then writes the given status together with
`finishedAt`; `exitCode` / `errorMessage` keep their old values when the
caller passed `undefined`. -/
def completeRun (st : RunServiceState) (id : String) (status : RunStatus)
    (exitCode : Option Int) (errorMessage : Option String) (now : Int) :
    Except RunServiceError (SyncRun × RunServiceState) :=
  match getRunById st id with
  | none => .error (.runNotFound id)
  | some run =>
    let updated :=
      { run with
        status := status,
        exitCode := match exitCode with | some c => some c | none => run.exitCode,
        errorMessage := match errorMessage with | some m => some m | none => run.errorMessage,
        finishedAt := some now }
    .ok (updated,
      { runs := setRunRow st.runs id updated,
        runningProfileIds := guardDelete st.runningProfileIds run.syncProfileId })

/-- RunService.failRun. -/
def failRun (st : RunServiceState) (id : String) (errorMessage : String)
    (exitCode : Option Int) (now : Int) :
    Except RunServiceError (SyncRun × RunServiceState) :=
  completeRun st id .FAILED exitCode (some errorMessage) now

/-- RunService.succeedRun. -/
def succeedRun (st : RunServiceState) (id : String) (exitCode : Option Int)
    (now : Int) : Except RunServiceError (SyncRun × RunServiceState) :=
  completeRun st id .SUCCESS exitCode none now

/-- RunService.cancelRun: only legal while RUNNING; sets FAILED with the
user-cancellation message and releases the guard. -/
def cancelRun (st : RunServiceState) (id : String) (now : Int) :
    Except RunServiceError (SyncRun × RunServiceState) :=
  match getRunById st id with
  | none => .error (.runNotFound id)
  | some run =>
    if run.status == .RUNNING then
      let updated :=
        { run with status := .FAILED, finishedAt := some now,
                   errorMessage := some "Run cancelled by user" }
      .ok (updated,
        { runs := setRunRow st.runs id updated,
          runningProfileIds := guardDelete st.runningProfileIds run.syncProfileId })
    else
      .error (.cannotCancel id run.status)

/-- RunService.RUN_TIMEOUT_MS. -/
def RUN_TIMEOUT_MS : Int := 10 * 60 * 1000

/-- The stale condition of RunService.cleanupStaleRuns: RUNNING and
started strictly before `now - RUN_TIMEOUT_MS`. -/
def isStaleRun (now : Int) (r : SyncRun) : Bool :=
  r.status == .RUNNING && decide (r.startedAt < now - RUN_TIMEOUT_MS)

/-- The row update cleanupStaleRuns applies to a stale RUNNING row. -/
def staleFix (now : Int) (r : SyncRun) : SyncRun :=
  { r with status := .FAILED, finishedAt := some now,
           errorMessage := some "Run timed out after 10 minutes" }

/-- RunService.cleanupStaleRuns: a single prisma updateMany that
force-fails every stale RUNNING row.  It touches only the durable
table — `runningProfileIds` is left exactly as it was. -/
def cleanupStaleRuns (st : RunServiceState) (now : Int) : Nat × RunServiceState :=
  let count := st.runs.countP (fun r => isStaleRun now r)
  (count,
    { st with runs := st.runs.map (fun r =>
        if isStaleRun now r then staleFix now r else r) })

/-- RunService.isProfileRunning: first sweeps stale runs, then checks
the durable table (not the in-memory guard) for a RUNNING row of the
profile. -/
def isProfileRunning (st : RunServiceState) (syncProfileId : String) (now : Int) :
    Bool × RunServiceState :=
  let swept := (cleanupStaleRuns st now).2
  (swept.runs.any (fun r => r.syncProfileId == syncProfileId && r.status == .RUNNING),
   swept)

/-- Milliseconds per day, for the retention cutoff of cleanupOldRuns. -/
def MS_PER_DAY : Int := 86400000

/-- The deletion condition of RunService.cleanupOldRuns: terminal status
and `startedAt` strictly before the cutoff. -/
def shouldCleanup (cutoff : Int) (r : SyncRun) : Bool :=
  decide (r.startedAt < cutoff) && (r.status == .SUCCESS || r.status == .FAILED)

/-- Result of cleanupOldRuns: the returned counts, the log-file paths
whose deletion was attempted, and the resulting ledger state. -/
structure CleanupOldResult where
  deletedRuns : Nat
  deletedLogFiles : Nat
  attemptedLogPaths : List String
  state : RunServiceState

/-- RunService.cleanupOldRuns: selects the terminal rows started before
`now - daysOld` days, attempts to delete each one's log file when it has
one (`deleteFile` models LogDirectoryService.deleteLogFile, which may
return false or throw; a throw is caught and only logged), then deletes
exactly the selected rows with one deleteMany. -/
def cleanupOldRuns (deleteFile : String → Except Unit Bool)
    (st : RunServiceState) (daysOld : Nat) (now : Int) : CleanupOldResult :=
  let cutoff := now - (daysOld : Int) * MS_PER_DAY
  let runsToDelete := st.runs.filter (fun r => shouldCleanup cutoff r)
  let paths := runsToDelete.filterMap (fun r => r.logFilePath)
  { deletedRuns := runsToDelete.length,
    deletedLogFiles := paths.countP (fun p =>
      match deleteFile p with | .ok true => true | _ => false),
    attemptedLogPaths := paths,
    state := { st with runs := st.runs.filter (fun r => !(shouldCleanup cutoff r)) } }

/-- Whether an `Except` value is a success (a call that did not throw). -/
def isOkE {ε α : Type} : Except ε α → Bool
  | .ok _ => true
  | .error _ => false

/-- The status of the run with the given id, as stored in the ledger. -/
def runStatusOf (st : RunServiceState) (id : String) : Option RunStatus :=
  (getRunById st id).map (fun r => r.status)

/-- The four mutating Run Ledger operations named by the spec's
monotonicity invariant. -/
inductive LedgerOp where
  | start (id : String) (now : Int)
  | update (id : String) (d : UpdateRunData)
  | complete (id : String) (status : RunStatus) (exitCode : Option Int)
      (errorMessage : Option String) (now : Int)
  | cancel (id : String) (now : Int)
  deriving DecidableEq, Repr

/-- Apply one ledger operation; a thrown error leaves the state as the
operation left it (for these four operations every mutation happens
after the last possible throw, so the state is unchanged). -/
def applyLedgerOp (st : RunServiceState) : LedgerOp → RunServiceState
  | .start id now =>
      match startRun st id now with
      | .ok (_, st') => st'
      | .error _ => st
  | .update id d =>
      match updateRun st id d with
      | .ok (_, st') => st'
      | .error _ => st
  | .complete id status exitCode errorMessage now =>
      match completeRun st id status exitCode errorMessage now with
      | .ok (_, st') => st'
      | .error _ => st
  | .cancel id now =>
      match cancelRun st id now with
      | .ok (_, st') => st'
      | .error _ => st

/-- Apply a sequence of ledger operations from left to right. -/
def applyLedgerOps (st : RunServiceState) : List LedgerOp → RunServiceState
  | [] => st
  | op :: ops => applyLedgerOps (applyLedgerOp st op) ops

/-- Position of a status along the lifecycle PENDING, RUNNING, terminal. -/
def statusRank : RunStatus → Nat
  | .PENDING => 0
  | .RUNNING => 1
  | .SUCCESS => 2
  | .FAILED => 2

/-- Whether a status is terminal. -/
def isTerminal (s : RunStatus) : Bool :=
  s == .SUCCESS || s == .FAILED

/-- The monotone ordering on statuses claimed by the spec: forward along
PENDING, RUNNING, terminal, and once terminal only equality. -/
def statusLe (a b : RunStatus) : Bool :=
  decide (statusRank a ≤ statusRank b) && (!isTerminal a || a == b)

/-- `statusLe` lifted to the optional status of a possibly-absent run. -/
def optStatusLe : Option RunStatus → Option RunStatus → Bool
  | none, none => true
  | some a, some b => statusLe a b
  | _, _ => false

/-- The intended call discipline on the Run Ledger: start only PENDING
runs, never change status through the generic update, and complete only
RUNNING runs with a terminal status. -/
def guardedOp (st : RunServiceState) : LedgerOp → Bool
  | .start id _ => runStatusOf st id == some .PENDING
  | .update _ d => d.status == none
  | .complete id status _ _ _ =>
      runStatusOf st id == some .RUNNING && isTerminal status
  | .cancel _ _ => true

/-- Every operation of the sequence respects the call discipline at the
state it actually executes in. -/
def guardedOps (st : RunServiceState) : List LedgerOp → Bool
  | [] => true
  | op :: ops => guardedOp st op && guardedOps (applyLedgerOp st op) ops

/-- The empty initial ledger of the C1 scenario. -/
def scenarioSt0 : RunServiceState := { runs := [], runningProfileIds := [] }

/-- After createRun of run1 for p1 in MANUAL mode. -/
def scenarioSt1 : RunServiceState :=
  (createRun scenarioSt0 "run1" "p1" RunMode.MANUAL 0).2

/-- After startRun of run1. -/
def scenarioSt2 : RunServiceState :=
  applyLedgerOp scenarioSt1 (LedgerOp.start "run1" 1)

/-- After createRun of a second fresh run for p1. -/
def scenarioSt3 : RunServiceState :=
  (createRun scenarioSt2 "run2" "p1" RunMode.MANUAL 2).2

/-- After completeRun(SUCCESS, 0) on run1 and createRun of a third
fresh run for p1. -/
def scenarioSt4 : RunServiceState :=
  (createRun
    (applyLedgerOp scenarioSt3
      (LedgerOp.complete "run1" RunStatus.SUCCESS (some 0) none 4))
    "run3" "p1" RunMode.MANUAL 5).2

theorem findRun_eq_id {runs : List SyncRun} {id : String} {r : SyncRun}
    (h : findRun runs id = some r) : r.id = id := by
  induction runs with
  | nil => simp [findRun] at h
  | cons x xs ih =>
    rw [findRun] at h
    split at h
    · next hx =>
      cases h
      exact beq_iff_eq.mp hx
    · exact ih h

theorem findRun_setRunRow (runs : List SyncRun) (tid : String) (upd : SyncRun)
    (hupd : upd.id = tid) (id : String) :
    findRun (setRunRow runs tid upd) id =
      if id = tid then (findRun runs tid).map (fun _ => upd)
      else findRun runs id := by
  induction runs with
  | nil => by_cases hid : id = tid <;> simp [findRun, setRunRow, hid]
  | cons r rs ih =>
    by_cases hid : id = tid
    · subst hid
      by_cases hr : r.id = id
      · simp [setRunRow, findRun, hr, hupd]
      · simp only [setRunRow, List.map_cons, findRun, beq_iff_eq, hr, if_false,
          if_pos rfl] at *
        simpa using ih
    · have hid' : ¬ tid = id := fun hc => hid hc.symm
      by_cases hr : r.id = tid
      · have h1 : ¬ upd.id = id := by
          rw [hupd]
          exact hid'
        have h2 : ¬ r.id = id := by
          rw [hr]
          exact hid'
        simp only [setRunRow, List.map_cons, findRun, beq_iff_eq, if_pos hr,
          if_neg h1, if_neg h2, if_neg hid] at *
        simpa [hid] using ih
      · by_cases hid2 : r.id = id
        · simp [setRunRow, findRun, hr, hid2, hid]
        · simp only [setRunRow, List.map_cons, findRun, beq_iff_eq, if_neg hr,
            if_neg hid2, if_neg hid] at *
          simpa [hid] using ih

/-- C1: Run Ledger locking scenario for a single profile p1: after
createRun for p1 in MANUAL mode, startRun on that run succeeds; while
that run is RUNNING, startRun on a second freshly created run for p1
fails with the AlreadyRunning error and leaves the state (in particular
the guard set) unchanged; after completeRun(SUCCESS, exit code 0) on
the first run, startRun on a third fresh run for p1 succeeds. -/
theorem runLedger_locking_scenario :
    isOkE (startRun scenarioSt1 "run1" 1) = true
      ∧ runStatusOf scenarioSt2 "run1" = some RunStatus.RUNNING
      ∧ startRun scenarioSt3 "run2" 3
          = Except.error (RunServiceError.alreadyRunning "p1")
      ∧ applyLedgerOp scenarioSt3 (LedgerOp.start "run2" 3) = scenarioSt3
      ∧ scenarioSt3.runningProfileIds = ["p1"]
      ∧ isOkE (completeRun scenarioSt3 "run1" RunStatus.SUCCESS (some 0) none 4) = true
      ∧ isOkE (startRun scenarioSt4 "run3" 6) = true
      ∧ runStatusOf (applyLedgerOp scenarioSt4 (LedgerOp.start "run3" 6)) "run3"
          = some RunStatus.RUNNING := by
  decide

theorem statusLe_refl (a : RunStatus) : statusLe a a = true := by
  cases a <;> rfl

theorem optStatusLe_refl (o : Option RunStatus) : optStatusLe o o = true := by
  cases o with
  | none => rfl
  | some a => exact statusLe_refl a

theorem statusLe_trans (a b c : RunStatus) (h1 : statusLe a b = true)
    (h2 : statusLe b c = true) : statusLe a c = true := by
  cases a <;> cases b <;> cases c <;> revert h1 h2 <;> decide

theorem optStatusLe_trans {a b c : Option RunStatus}
    (h1 : optStatusLe a b = true) (h2 : optStatusLe b c = true) :
    optStatusLe a c = true := by
  match a, b, c with
  | none, none, none => rfl
  | none, none, some _ => exact h2
  | none, some _, _ => exact absurd h1 (by simp [optStatusLe])
  | some _, none, _ => exact absurd h1 (by simp [optStatusLe])
  | some _, some _, none => exact absurd h2 (by simp [optStatusLe])
  | some x, some y, some z => exact statusLe_trans x y z h1 h2

theorem guardedOp_status_mono (st : RunServiceState) (op : LedgerOp)
    (h : guardedOp st op = true) (id : String) :
    optStatusLe (runStatusOf st id) (runStatusOf (applyLedgerOp st op) id) = true := by
  cases op with
  | start tid now =>
    have hst : runStatusOf st tid = some .PENDING := by
      simpa [guardedOp] using h
    rcases hfind : getRunById st tid with _ | run
    · rw [runStatusOf, hfind] at hst
      simp at hst
    · have hrs : run.status = .PENDING := by
        rw [runStatusOf, hfind] at hst
        simpa using hst
      have hrid : run.id = tid := findRun_eq_id hfind
      rw [getRunById] at hfind
      by_cases hc : run.syncProfileId ∈ st.runningProfileIds
      · simp [applyLedgerOp, startRun, getRunById, hfind, hc, optStatusLe_refl]
      · simp only [applyLedgerOp, startRun, getRunById, hfind, List.elem_eq_mem,
          decide_eq_true_eq, hc, if_false]
        simp only [runStatusOf, getRunById]
        rw [findRun_setRunRow st.runs tid _ ?hupd1 id]
        case hupd1 => exact hrid
        by_cases hid : id = tid
        · subst hid
          rw [if_pos rfl, hfind]
          simp [hrs, optStatusLe, statusLe, statusRank, isTerminal]
        · rw [if_neg hid]
          exact optStatusLe_refl _
  | update tid d =>
    have hd : d.status = none := by
      simpa [guardedOp] using h
    rcases hfind : getRunById st tid with _ | run
    · simp [applyLedgerOp, updateRun, hfind, optStatusLe_refl]
    · have hrid : run.id = tid := findRun_eq_id hfind
      rw [getRunById] at hfind
      simp only [applyLedgerOp, updateRun, getRunById, hfind]
      simp only [runStatusOf, getRunById]
      rw [findRun_setRunRow _ _ _ (show (applyRunUpdate run d).id = tid from hrid) id]
      by_cases hid : id = tid
      · subst hid
        rw [if_pos rfl, hfind]
        simp [applyRunUpdate, hd, optStatusLe, statusLe_refl]
      · rw [if_neg hid]
        exact optStatusLe_refl _
  | complete tid status exitCode errorMessage now =>
    have hpair : runStatusOf st tid = some .RUNNING ∧ isTerminal status = true := by
      have h2 := h
      simp [guardedOp] at h2
      exact h2
    rcases hfind : getRunById st tid with _ | run
    · simp [applyLedgerOp, completeRun, hfind, optStatusLe_refl]
    · have hrs : run.status = .RUNNING := by
        have h3 := hpair.1
        rw [runStatusOf, hfind] at h3
        simpa using h3
      have hrid : run.id = tid := findRun_eq_id hfind
      rw [getRunById] at hfind
      simp only [applyLedgerOp, completeRun, getRunById, hfind]
      simp only [runStatusOf, getRunById]
      rw [findRun_setRunRow st.runs tid _ ?hupd2 id]
      case hupd2 => exact hrid
      by_cases hid : id = tid
      · subst hid
        rw [if_pos rfl, hfind]
        have hterm := hpair.2
        cases status <;>
          simp_all [optStatusLe, statusLe, statusRank, isTerminal]
      · rw [if_neg hid]
        exact optStatusLe_refl _
  | cancel tid now =>
    rcases hfind : getRunById st tid with _ | run
    · simp [applyLedgerOp, cancelRun, hfind, optStatusLe_refl]
    · have hrid : run.id = tid := findRun_eq_id hfind
      rw [getRunById] at hfind
      by_cases hrun : run.status = RunStatus.RUNNING
      · simp only [applyLedgerOp, cancelRun, getRunById, hfind, beq_iff_eq, hrun,
          if_true]
        simp only [runStatusOf, getRunById]
        rw [findRun_setRunRow st.runs tid _ ?hupd3 id]
        case hupd3 => exact hrid
        by_cases hid : id = tid
        · subst hid
          rw [if_pos rfl, hfind]
          simp [optStatusLe, hrun, statusLe, statusRank, isTerminal]
        · rw [if_neg hid]
          exact optStatusLe_refl _
      · have hrb : (run.status == RunStatus.RUNNING) = false := by
          simp
          exact hrun
        simp [applyLedgerOp, cancelRun, getRunById, hfind, hrb, optStatusLe_refl]

/-- The ledger state of the C2 counterexample: one SUCCESS (terminal)
run r1 of profile p1, with the guard set empty (exactly what completeRun
leaves behind). -/
def c2CounterState : RunServiceState :=
  { runs := [{ id := "r1", syncProfileId := "p1", mode := RunMode.MANUAL,
               status := RunStatus.SUCCESS, startedAt := 0,
               finishedAt := some 1, exitCode := some 0 }],
    runningProfileIds := [] }

/-- C2 counterexample: startRun performs no status check, so a second
startRun on a run that is already terminal (SUCCESS) succeeds and moves
it back to RUNNING — a terminal state is left, refuting the claim for
the sequence [startRun r1]. -/
theorem run_status_monotonic_counterexample :
    runStatusOf c2CounterState "r1" = some RunStatus.SUCCESS
      ∧ runStatusOf (applyLedgerOps c2CounterState [LedgerOp.start "r1" 5]) "r1"
          = some RunStatus.RUNNING
      ∧ optStatusLe (runStatusOf c2CounterState "r1")
          (runStatusOf (applyLedgerOps c2CounterState [LedgerOp.start "r1" 5]) "r1")
          = false := by
  decide

/-- C2 (amended): run statuses are monotone (PENDING to RUNNING to a
terminal state, never leaving a terminal state) for every sequence of
ledger operations that respects the intended call discipline: startRun
only on PENDING runs, updateRun never with a status field, completeRun
only on RUNNING runs and only with a terminal status.  Without that
discipline the code does not enforce monotonicity (see the
counterexample). -/
theorem run_status_monotonic_guarded (st : RunServiceState)
    (ops : List LedgerOp) (h : guardedOps st ops = true) (id : String) :
    optStatusLe (runStatusOf st id) (runStatusOf (applyLedgerOps st ops) id)
      = true := by
  induction ops generalizing st with
  | nil => exact optStatusLe_refl _
  | cons op ops ih =>
    rw [guardedOps, Bool.and_eq_true] at h
    exact optStatusLe_trans (guardedOp_status_mono st op h.1 id) (ih _ h.2)

/-- A PENDING run of profile p1 with an empty guard set, for the C2
witness. -/
def c2WitnessState : RunServiceState :=
  { runs := [{ id := "r1", syncProfileId := "p1", mode := RunMode.MANUAL,
               status := RunStatus.PENDING, startedAt := 0 }],
    runningProfileIds := [] }

/-- Witness for the amended C2 theorem at a concrete guarded sequence. -/
theorem run_status_monotonic_guarded_witness :
    guardedOps c2WitnessState
        [LedgerOp.start "r1" 1,
         LedgerOp.complete "r1" RunStatus.SUCCESS (some 0) none 2] = true
      ∧ optStatusLe (runStatusOf c2WitnessState "r1")
          (runStatusOf (applyLedgerOps c2WitnessState
            [LedgerOp.start "r1" 1,
             LedgerOp.complete "r1" RunStatus.SUCCESS (some 0) none 2]) "r1")
          = true :=
  ⟨by decide,
   run_status_monotonic_guarded c2WitnessState
     [LedgerOp.start "r1" 1,
      LedgerOp.complete "r1" RunStatus.SUCCESS (some 0) none 2]
     (by decide) "r1"⟩

theorem findRun_map (runs : List SyncRun) (g : SyncRun → SyncRun)
    (hg : ∀ r, (g r).id = r.id) (id : String) :
    findRun (runs.map g) id = (findRun runs id).map g := by
  induction runs with
  | nil => rfl
  | cons r rs ih =>
    by_cases hr : r.id = id
    · simp [findRun, hg r, hr]
    · simp [findRun, hg r, hr, ih]

theorem contains_guardDelete_self (s : List String) (x : String) :
    (guardDelete s x).contains x = false := by
  induction s with
  | nil => rfl
  | cons y ys ih =>
    by_cases h : y = x
    · simp only [guardDelete] at ih ⊢
      simp [h, ih]
    · have h2 : ¬ x = y := fun hc => h hc.symm
      simp only [guardDelete] at ih ⊢
      simp [h, h2, ih]

theorem shouldCleanup_eq_true_iff (cutoff : Int) (r : SyncRun) :
    shouldCleanup cutoff r = true
      ↔ (r.startedAt < cutoff
          ∧ (r.status = RunStatus.SUCCESS ∨ r.status = RunStatus.FAILED)) := by
  rw [shouldCleanup, Bool.and_eq_true, Bool.or_eq_true, decide_eq_true_eq,
    beq_iff_eq, beq_iff_eq]

theorem not_mem_guardDelete_self (s : List String) (x : String) :
    x ∉ guardDelete s x := by
  intro hx
  rw [guardDelete] at hx
  rcases List.mem_filter.mp hx with ⟨_, hbad⟩
  simp at hbad

/-- C6: cleanupOldRuns(30) keeps exactly the rows that are not
(terminal and started strictly before now minus 30 days) — so no
PENDING or RUNNING row and no younger row is deleted — it attempts the
log-file deletion exactly for the deleted rows that have a
`logFilePath`, and neither the surviving rows nor the deleted-run count
depend on the outcome of the log-file deletions (a failing deletion
does not prevent the run's deletion). -/
theorem cleanupOldRuns_retention_exact (deleteFile : String → Except Unit Bool)
    (st : RunServiceState) (now : Int) :
    (cleanupOldRuns deleteFile st 30 now).state.runs
        = st.runs.filter (fun r => !(shouldCleanup (now - 30 * MS_PER_DAY) r))
      ∧ (∀ r : SyncRun,
          r ∈ (cleanupOldRuns deleteFile st 30 now).state.runs
            ↔ r ∈ st.runs
              ∧ ¬(r.startedAt < now - 30 * MS_PER_DAY
                    ∧ (r.status = RunStatus.SUCCESS ∨ r.status = RunStatus.FAILED)))
      ∧ (cleanupOldRuns deleteFile st 30 now).state.runningProfileIds
          = st.runningProfileIds
      ∧ (cleanupOldRuns deleteFile st 30 now).attemptedLogPaths
          = (st.runs.filter (fun r => shouldCleanup (now - 30 * MS_PER_DAY) r)).filterMap
              (fun r => r.logFilePath)
      ∧ (cleanupOldRuns deleteFile st 30 now).deletedRuns
          = (st.runs.filter (fun r => shouldCleanup (now - 30 * MS_PER_DAY) r)).length
      ∧ (∀ deleteFile2 : String → Except Unit Bool,
          (cleanupOldRuns deleteFile2 st 30 now).state
              = (cleanupOldRuns deleteFile st 30 now).state
            ∧ (cleanupOldRuns deleteFile2 st 30 now).attemptedLogPaths
                = (cleanupOldRuns deleteFile st 30 now).attemptedLogPaths
            ∧ (cleanupOldRuns deleteFile2 st 30 now).deletedRuns
                = (cleanupOldRuns deleteFile st 30 now).deletedRuns) := by
  refine ⟨rfl, ?_, rfl, rfl, rfl, fun _ => ⟨rfl, rfl, rfl⟩⟩
  intro r
  show r ∈ st.runs.filter (fun r => !(shouldCleanup (now - 30 * MS_PER_DAY) r)) ↔ _
  have h2 : ∀ b : Bool, ((!b) = true) ↔ ¬(b = true) := by decide
  rw [List.mem_filter, h2, shouldCleanup_eq_true_iff]

/-- The stale-fix applied to one row by cleanupStaleRuns. -/
theorem isStaleRun_of_old (now : Int) (r : SyncRun)
    (hrun : r.status = RunStatus.RUNNING)
    (hold : r.startedAt < now - RUN_TIMEOUT_MS) : isStaleRun now r = true := by
  simp [isStaleRun, hrun, hold]

/-- C9 (implicit): cleanupStaleRuns force-fails stale RUNNING runs only
in the durable table and never touches the in-memory guard set, so once
a profile's RUNNING runs are all stale, isProfileRunning (which sweeps
first, then reads the table) answers false while startRun on a fresh
run of the same profile still throws AlreadyRunning off the guard set —
the two views of "who is running" diverge. -/
theorem cleanupStaleRuns_guard_divergence (st : RunServiceState)
    (pid freshId : String) (freshRun : SyncRun) (now : Int)
    (hmem : st.runningProfileIds.contains pid = true)
    (hstale : st.runs.all (fun r =>
        !(r.syncProfileId == pid) || !(r.status == RunStatus.RUNNING)
          || decide (r.startedAt < now - RUN_TIMEOUT_MS)) = true)
    (hfresh : getRunById st freshId = some freshRun)
    (hfreshProfile : freshRun.syncProfileId = pid) :
    ((cleanupStaleRuns st now).2.runningProfileIds = st.runningProfileIds)
      ∧ (isProfileRunning st pid now).1 = false
      ∧ (∀ now2 : Int, startRun (cleanupStaleRuns st now).2 freshId now2
            = Except.error (RunServiceError.alreadyRunning pid)) := by
  rw [List.all_eq_true] at hstale
  have hgfix : ∀ r : SyncRun,
      ((if isStaleRun now r then staleFix now r else r) : SyncRun).id = r.id := by
    intro r
    by_cases hs : isStaleRun now r <;> simp [hs, staleFix]
  refine ⟨rfl, ?_, ?_⟩
  · show ((cleanupStaleRuns st now).2.runs.any
        (fun r => r.syncProfileId == pid && r.status == RunStatus.RUNNING)) = false
    rw [List.any_eq_false]
    intro x hx
    simp only [cleanupStaleRuns] at hx
    rcases List.mem_map.mp hx with ⟨r, hr, rfl⟩
    by_cases hs : isStaleRun now r = true
    · simp [hs, staleFix]
    · have hcase := hstale r hr
      simp only [hs, if_false, Bool.false_eq_true]
      simp only [Bool.or_eq_true, Bool.not_eq_true', beq_eq_false_iff_ne,
        decide_eq_true_eq] at hcase
      simp only [Bool.and_eq_true, beq_iff_eq, not_and]
      intro hpid hrunning
      have hold : r.startedAt < now - RUN_TIMEOUT_MS := by
        rcases hcase with (hc | hc) | hc
        · exact absurd hpid hc
        · exact absurd hrunning hc
        · exact hc
      exact absurd (isStaleRun_of_old now r hrunning hold) hs
  · intro now2
    have hfind2 : getRunById (cleanupStaleRuns st now).2 freshId
        = some (if isStaleRun now freshRun then staleFix now freshRun
                else freshRun) := by
      show findRun ((cleanupStaleRuns st now).2.runs) freshId = _
      simp only [cleanupStaleRuns]
      rw [findRun_map _ _ hgfix]
      rw [getRunById] at hfresh
      rw [hfresh]
      rfl
    rw [startRun, hfind2]
    have hmem2 : pid ∈ (cleanupStaleRuns st now).2.runningProfileIds := by
      show pid ∈ st.runningProfileIds
      simpa using hmem
    by_cases hs : isStaleRun now freshRun = true <;>
      simp [hs, staleFix, hfreshProfile, hmem2]

/-- The startRun call of WithingsSyncRunner.runSync together with its
catch handler: when startRun throws, the handler calls
failRun(runId, error.message) on the run it was trying to start, and a
failure of that database write is swallowed. -/
def runSyncStart (st : RunServiceState) (runId : String) (now : Int) :
    RunServiceState :=
  match startRun st runId now with
  | .ok (_, st1) => st1
  | .error e =>
    match failRun st runId (runServiceErrorMessage e) none now with
    | .ok (_, st1) => st1
    | .error _ => st

/-- C10 (implicit): when runSync's startRun throws AlreadyRunning
(another run of the same profile holds the lock), the catch handler
fails the new run through completeRun, which unconditionally deletes
the profile from the guard set — releasing the lock held on behalf of
the other, still-RUNNING run — so an immediately following startRun for
the same profile passes the guard-set check while the first run is
still RUNNING. -/
theorem runSync_catch_releases_foreign_lock (st : RunServiceState)
    (runId otherId freshId pid : String)
    (newRun otherRun freshRun : SyncRun) (now : Int)
    (hfind : getRunById st runId = some newRun)
    (hprof : newRun.syncProfileId = pid)
    (hlock : st.runningProfileIds.contains pid = true)
    (hother : getRunById st otherId = some otherRun)
    (hotherRunning : otherRun.status = RunStatus.RUNNING)
    (hne : ¬ otherId = runId)
    (hfresh : getRunById st freshId = some freshRun)
    (hfreshProf : freshRun.syncProfileId = pid)
    (hfreshNe : ¬ freshId = runId) :
    startRun st runId now = Except.error (RunServiceError.alreadyRunning pid)
      ∧ (runSyncStart st runId now).runningProfileIds.contains pid = false
      ∧ runStatusOf (runSyncStart st runId now) runId = some RunStatus.FAILED
      ∧ runStatusOf (runSyncStart st runId now) otherId = some RunStatus.RUNNING
      ∧ (∀ now2 : Int, isOkE (startRun (runSyncStart st runId now) freshId now2)
            = true) := by
  have hridNew : newRun.id = runId := findRun_eq_id hfind
  have hlock2 : pid ∈ st.runningProfileIds := by
    simpa using hlock
  have hstart : startRun st runId now
      = Except.error (RunServiceError.alreadyRunning pid) := by
    simp [startRun, hfind, hprof, hlock2]
  have hstState : runSyncStart st runId now
      = { runs := setRunRow st.runs runId
            { newRun with status := RunStatus.FAILED,
                          errorMessage := some (runServiceErrorMessage
                            (RunServiceError.alreadyRunning pid)),
                          finishedAt := some now },
          runningProfileIds := guardDelete st.runningProfileIds pid } := by
    rw [runSyncStart, hstart]
    simp only [failRun, completeRun, hfind]
    rw [hprof]
  refine ⟨hstart, ?_, ?_, ?_, ?_⟩
  · rw [hstState]
    exact contains_guardDelete_self _ _
  · rw [hstState]
    simp only [runStatusOf, getRunById]
    rw [findRun_setRunRow st.runs runId _ ?hup10a runId]
    case hup10a => exact hridNew
    rw [if_pos rfl]
    rw [getRunById] at hfind
    rw [hfind]
    rfl
  · rw [hstState]
    simp only [runStatusOf, getRunById]
    rw [findRun_setRunRow st.runs runId _ ?hup10b otherId]
    case hup10b => exact hridNew
    rw [if_neg hne]
    rw [getRunById] at hother
    rw [hother]
    simp [hotherRunning]
  · intro now2
    have hfresh2 : getRunById (runSyncStart st runId now) freshId
        = some freshRun := by
      rw [hstState]
      show findRun (setRunRow st.runs runId _) freshId = some freshRun
      rw [findRun_setRunRow st.runs runId _ ?hup10c freshId]
      case hup10c => exact hridNew
      rw [if_neg hfreshNe]
      rw [getRunById] at hfresh
      exact hfresh
    rw [startRun, hfresh2, hstState]
    simp [hfreshProf, not_mem_guardDelete_self, isOkE]

/-- The ledger of the C9 witness: one stale RUNNING run r1 of p1, one
fresh PENDING run r2 of p1, guard set holding p1. -/
def c9State : RunServiceState :=
  { runs := [{ id := "r1", syncProfileId := "p1", mode := RunMode.CRON,
               status := RunStatus.RUNNING, startedAt := 0 },
             { id := "r2", syncProfileId := "p1", mode := RunMode.MANUAL,
               status := RunStatus.PENDING, startedAt := 650000 }],
    runningProfileIds := ["p1"] }

/-- The fresh run row of the C9 witness. -/
def c9FreshRun : SyncRun :=
  { id := "r2", syncProfileId := "p1", mode := RunMode.MANUAL,
    status := RunStatus.PENDING, startedAt := 650000 }

/-- Witness for the C9 theorem at a concrete post-sweep state. -/
theorem cleanupStaleRuns_guard_divergence_witness :
    c9State.runningProfileIds.contains "p1" = true
      ∧ (isProfileRunning c9State "p1" 700000).1 = false
      ∧ startRun (cleanupStaleRuns c9State 700000).2 "r2" 800000
          = Except.error (RunServiceError.alreadyRunning "p1") :=
  ⟨by decide,
   (cleanupStaleRuns_guard_divergence c9State "p1" "r2" c9FreshRun 700000
      (by decide) (by decide) (by decide) (by decide)).2.1,
   (cleanupStaleRuns_guard_divergence c9State "p1" "r2" c9FreshRun 700000
      (by decide) (by decide) (by decide) (by decide)).2.2 800000⟩

/-- The ledger of the C10 witness: RUNNING run r1 of p1 holds the lock,
r2 is the new run whose startRun will throw, r3 is a later fresh run. -/
def c10State : RunServiceState :=
  { runs := [{ id := "r1", syncProfileId := "p1", mode := RunMode.MANUAL,
               status := RunStatus.RUNNING, startedAt := 0 },
             { id := "r2", syncProfileId := "p1", mode := RunMode.MANUAL,
               status := RunStatus.PENDING, startedAt := 10 },
             { id := "r3", syncProfileId := "p1", mode := RunMode.MANUAL,
               status := RunStatus.PENDING, startedAt := 20 }],
    runningProfileIds := ["p1"] }

/-- Row r2 of the C10 witness. -/
def c10NewRun : SyncRun :=
  { id := "r2", syncProfileId := "p1", mode := RunMode.MANUAL,
    status := RunStatus.PENDING, startedAt := 10 }

/-- Row r1 of the C10 witness. -/
def c10OtherRun : SyncRun :=
  { id := "r1", syncProfileId := "p1", mode := RunMode.MANUAL,
    status := RunStatus.RUNNING, startedAt := 0 }

/-- Row r3 of the C10 witness. -/
def c10FreshRun : SyncRun :=
  { id := "r3", syncProfileId := "p1", mode := RunMode.MANUAL,
    status := RunStatus.PENDING, startedAt := 20 }

/-- Witness for the C10 theorem at a concrete state. -/
theorem runSync_catch_releases_foreign_lock_witness :
    startRun c10State "r2" 30 = Except.error (RunServiceError.alreadyRunning "p1")
      ∧ (runSyncStart c10State "r2" 30).runningProfileIds.contains "p1" = false
      ∧ runStatusOf (runSyncStart c10State "r2" 30) "r1" = some RunStatus.RUNNING
      ∧ isOkE (startRun (runSyncStart c10State "r2" 30) "r3" 40) = true :=
  ⟨(runSync_catch_releases_foreign_lock c10State "r2" "r1" "r3" "p1"
      c10NewRun c10OtherRun c10FreshRun 30 (by decide) (by decide) (by decide)
      (by decide) (by decide) (by decide) (by decide) (by decide) (by decide)).1,
   (runSync_catch_releases_foreign_lock c10State "r2" "r1" "r3" "p1"
      c10NewRun c10OtherRun c10FreshRun 30 (by decide) (by decide) (by decide)
      (by decide) (by decide) (by decide) (by decide) (by decide) (by decide)).2.1,
   (runSync_catch_releases_foreign_lock c10State "r2" "r1" "r3" "p1"
      c10NewRun c10OtherRun c10FreshRun 30 (by decide) (by decide) (by decide)
      (by decide) (by decide) (by decide) (by decide) (by decide) (by decide)).2.2.2.1,
   (runSync_catch_releases_foreign_lock c10State "r2" "r1" "r3" "p1"
      c10NewRun c10OtherRun c10FreshRun 30 (by decide) (by decide) (by decide)
      (by decide) (by decide) (by decide) (by decide) (by decide) (by decide)).2.2.2.2 40⟩

/-- A profile row as the scheduler consumes it (SyncProfile table,
read-only for the core). -/
structure SyncProfile where
  id : String
  name : String
  enabled : Bool
  scheduleCron : Option String := none
  withingsConfigDir : String := ""
  enableBloodPressure : Bool := false
  deriving DecidableEq, Repr

/-- randomInt of src/backend/src/utils/random.ts:
`Math.floor(Math.random() * (max - min + 1)) + min`.  The raw draw of
`Math.random()` is modelled by the natural `u`; the floor of the scaled
uniform draw lands in `[lo, hi]` exactly as `lo + u % (hi - lo + 1)`
does. -/
def randomInt (u : Nat) (lo hi : Nat) : Nat :=
  lo + u % (hi - lo + 1)

/-- randomMinute of utils/random.ts. -/
def randomMinute (u : Nat) : Nat := randomInt u 0 59

/-- randomHour of utils/random.ts. -/
def randomHour (u : Nat) : Nat := randomInt u 0 23

/-- JS String.prototype.split(' ') on the character list: split on
every single separator, keeping empty segments. -/
def splitChars (sep : Char) (cs : List Char) : List (List Char) :=
  match cs with
  | [] => [[]]
  | c :: rest =>
    let r := splitChars sep rest
    if c == sep then [] :: r
    else
      match r with
      | [] => [[c]]
      | h :: t => (c :: h) :: t

/-- JS String.prototype.split(' '). -/
def splitOnSpace (s : String) : List String :=
  (splitChars ' ' s.data).map (fun cs => String.mk cs)

/-- JS String.prototype.replace(/\?/g, '0'): every `?` becomes `0`. -/
def replaceQuestionWithZero (s : String) : String :=
  String.mk (s.data.map (fun c => if c == '?' then '0' else c))

/-- Array.prototype.join(' '), as used by resolveRandomPlaceholders. -/
def joinSpace : List String → String
  | [] => ""
  | [a] => a
  | a :: rest => a ++ " " ++ joinSpace rest

/-- SchedulerService.resolveRandomPlaceholders: splits on spaces,
replaces a literal `?` in the minute field by a random minute and a
literal `?` in the hour field by a random hour, and joins back.  The
global Math.random() stream is modelled by `rand` together with the
index `k` of the next draw; the returned Nat is the next unused index. -/
def resolveRandomPlaceholders (cronExpression : String) (rand : Nat → Nat)
    (k : Nat) : String × Nat :=
  let parts := splitOnSpace cronExpression
  let m1 :=
    if parts.get? 0 == some "?" then
      (parts.set 0 (toString (randomMinute (rand k))), k + 1)
    else (parts, k)
  let m2 :=
    if m1.1.get? 1 == some "?" then
      (m1.1.set 1 (toString (randomHour (rand m1.2))), m1.2 + 1)
    else (m1.1, m1.2)
  (joinSpace m2.1, m2.2)

/-- The errors SchedulerService.scheduleProfile throws. -/
inductive SchedulerError where
  | invalidCron (cronExpression : String)
  | profileNotFound (id : String)
  | profileDisabled (id : String)
  | failedToSchedule (id : String)
  | scheduleJobThrew (id : String)
  deriving DecidableEq, Repr

/-- The in-memory maps of SchedulerService.  A live node-schedule job is
represented by the cron expression it was registered with (timers fire
that fixed expression; nothing else of the Job object matters here). -/
structure SchedulerState where
  scheduledJobs : List (String × String)
  resolvedCronExpressions : List (String × String)
  deriving DecidableEq, Repr

/-- Lookup in a JS Map modelled as an association list. -/
def lookupAssoc {α : Type} (l : List (String × α)) (k : String) : Option α :=
  match l with
  | [] => none
  | p :: rest => if p.1 == k then some p.2 else lookupAssoc rest k

/-- Map.set. -/
def setAssoc {α : Type} (l : List (String × α)) (k : String) (v : α) :
    List (String × α) :=
  (k, v) :: l.filter (fun p => p.1 != k)

/-- Map.delete. -/
def removeAssoc {α : Type} (l : List (String × α)) (k : String) :
    List (String × α) :=
  l.filter (fun p => p.1 != k)

/-- SchedulerService.unscheduleProfile: cancels and forgets the job and
its resolved expression — but only when a job exists. -/
def unscheduleProfile (st : SchedulerState) (profileId : String) :
    SchedulerState :=
  match lookupAssoc st.scheduledJobs profileId with
  | some _ =>
      { scheduledJobs := removeAssoc st.scheduledJobs profileId,
        resolvedCronExpressions := removeAssoc st.resolvedCronExpressions profileId }
  | none => st

/-- SchedulerService.isValidCronExpression: replaces every `?` with `0`
and attempts to register a throwaway timer; valid iff that call does
not throw.  `scheduleJobFn` models node-schedule's scheduleJob: an
`Except.error` is a throw, `.ok true` a created Job, `.ok false` the
null return node-schedule documents for a spec it cannot parse. -/
def isValidCronExpression (scheduleJobFn : String → Except Unit Bool)
    (cronExpression : String) : Bool :=
  match scheduleJobFn (replaceQuestionWithZero cronExpression) with
  | .ok _ => true
  | .error _ => false

/-- SchedulerService.scheduleProfile.  Mutations made before a throw
persist on the service object, so the state is returned alongside the
outcome; the Nat is the random-stream index after the call. -/
def scheduleProfile (scheduleJobFn : String → Except Unit Bool)
    (profiles : List SyncProfile) (st : SchedulerState)
    (profileId cronExpression : String) (rand : Nat → Nat) (k : Nat) :
    Except SchedulerError Unit × SchedulerState × Nat :=
  if ¬ isValidCronExpression scheduleJobFn cronExpression then
    (.error (.invalidCron cronExpression), st, k)
  else
    match profiles.find? (fun p => p.id == profileId) with
    | none => (.error (.profileNotFound profileId), st, k)
    | some profile =>
      if ¬ profile.enabled then
        (.error (.profileDisabled profileId), st, k)
      else
        let st1 := unscheduleProfile st profileId
        let res := resolveRandomPlaceholders cronExpression rand k
        let st2 := { st1 with
          resolvedCronExpressions :=
            setAssoc st1.resolvedCronExpressions profileId res.1 }
        match scheduleJobFn res.1 with
        | .error _ => (.error (.scheduleJobThrew profileId), st2, res.2)
        | .ok false => (.error (.failedToSchedule profileId), st2, res.2)
        | .ok true =>
            (.ok (),
             { st2 with scheduledJobs := setAssoc st2.scheduledJobs profileId res.1 },
             res.2)

theorem lookupAssoc_setAssoc_self {α : Type} (l : List (String × α))
    (k : String) (v : α) : lookupAssoc (setAssoc l k v) k = some v := by
  simp [lookupAssoc, setAssoc]

/-- C3: resolving "? ? * * *" yields "M H * * *" with M the next random
minute draw and H the following, independent, random hour draw
(M in [0,59], H in [0,23]); the call consumes exactly two draws and
depends on nothing but those two, two successive calls read disjoint
draws and can realise every pair of outcomes, and scheduleProfile
resolves exactly once at registration time, storing that one resolved
expression both as the registered timer and for display — every firing
of the timer therefore uses the same resolved expression. -/
theorem cron_random_placeholder_resolution
    (rand rand2 : Nat → Nat) (k : Nat) (m1 h1 m2 h2 : Nat)
    (hm1 : m1 ≤ 59) (hh1 : h1 ≤ 23) (hm2 : m2 ≤ 59) (hh2 : h2 ≤ 23) :
    ((resolveRandomPlaceholders "? ? * * *" rand k).1
        = joinSpace [toString (randomMinute (rand k)),
            toString (randomHour (rand (k+1))), "*", "*", "*"])
      ∧ (resolveRandomPlaceholders "? ? * * *" rand k).2 = k + 2
      ∧ randomMinute (rand k) ≤ 59
      ∧ randomHour (rand (k+1)) ≤ 23
      ∧ (rand k = rand2 k → rand (k+1) = rand2 (k+1) →
          resolveRandomPlaceholders "? ? * * *" rand k
            = resolveRandomPlaceholders "? ? * * *" rand2 k)
      ∧ (∃ rnd : Nat → Nat,
          (resolveRandomPlaceholders "? ? * * *" rnd 0).1
              = joinSpace [toString m1, toString h1, "*", "*", "*"]
            ∧ (resolveRandomPlaceholders "? ? * * *" rnd
                  (resolveRandomPlaceholders "? ? * * *" rnd 0).2).1
                = joinSpace [toString m2, toString h2, "*", "*", "*"])
      ∧ (∀ (scheduleJobFn : String → Except Unit Bool)
            (profiles : List SyncProfile) (st st' : SchedulerState)
            (profileId : String) (k' : Nat),
          scheduleProfile scheduleJobFn profiles st profileId "? ? * * *" rand k
              = (Except.ok (), st', k') →
            k' = k + 2
              ∧ lookupAssoc st'.scheduledJobs profileId
                  = some ((resolveRandomPlaceholders "? ? * * *" rand k).1)
              ∧ lookupAssoc st'.resolvedCronExpressions profileId
                  = some ((resolveRandomPlaceholders "? ? * * *" rand k).1)) := by
  have hres : ∀ (r : Nat → Nat) (j : Nat),
      resolveRandomPlaceholders "? ? * * *" r j
        = (joinSpace [toString (randomMinute (r j)),
            toString (randomHour (r (j+1))), "*", "*", "*"], j + 2) :=
    fun r j => rfl
  refine ⟨rfl, rfl, ?_, ?_, ?_, ?_, ?_⟩
  · show randomInt (rand k) 0 59 ≤ 59
    rw [randomInt]
    omega
  · show randomInt (rand (k+1)) 0 23 ≤ 23
    rw [randomInt]
    omega
  · intro ha hb
    rw [hres rand, hres rand2, ha, hb]
  · refine ⟨fun i => if i = 0 then m1 else if i = 1 then h1
      else if i = 2 then m2 else h2, ?_, ?_⟩
    · have em : randomMinute m1 = m1 := by
        rw [randomMinute, randomInt]
        omega
      have eh : randomHour h1 = h1 := by
        rw [randomHour, randomInt]
        omega
      show joinSpace [toString (randomMinute m1), toString (randomHour h1),
          "*", "*", "*"] = _
      rw [em, eh]
    · have em : randomMinute m2 = m2 := by
        rw [randomMinute, randomInt]
        omega
      have eh : randomHour h2 = h2 := by
        rw [randomHour, randomInt]
        omega
      show joinSpace [toString (randomMinute m2), toString (randomHour h2),
          "*", "*", "*"] = _
      rw [em, eh]
  · intro f profiles st st' profileId k' h
    simp only [scheduleProfile] at h
    split at h
    · simp at h
    · split at h
      · simp at h
      · next profile heq =>
        split at h
        · simp at h
        · split at h
          · simp at h
          · simp at h
          · simp only [Prod.mk.injEq, true_and] at h
            rcases h with ⟨hst, hk⟩
            subst hst
            refine ⟨hk.symm.trans rfl, ?_, ?_⟩
            · exact lookupAssoc_setAssoc_self _ _ _
            · exact lookupAssoc_setAssoc_self _ _ _

/-- Witness for C3 at a concrete random stream (draws 100, 101, ...):
100 mod 60 = 40 and 101 mod 24 = 5. -/
theorem cron_random_placeholder_resolution_witness :
    (resolveRandomPlaceholders "? ? * * *" (fun i => 100 + i) 0).1 = "40 5 * * *"
      ∧ (resolveRandomPlaceholders "? ? * * *" (fun i => 100 + i) 0).2 = 2 :=
  ⟨((cron_random_placeholder_resolution (fun i => 100 + i) (fun i => 100 + i) 0
      5 7 59 23 (by decide) (by decide) (by decide) (by decide)).1).trans (by decide),
   (cron_random_placeholder_resolution (fun i => 100 + i) (fun i => 100 + i) 0
      5 7 59 23 (by decide) (by decide) (by decide) (by decide)).2.1⟩

/-- A model of node-schedule's scheduleJob given a string spec and a
callback: it never throws; it returns a Job exactly for the specs it
can parse (abstracted here as: five space-separated fields) and null
otherwise, as its documentation states. -/
def nodeScheduleJob : String → Except Unit Bool := fun spec =>
  .ok ((splitOnSpace spec).length == 5)

/-- A timer library whose scheduleJob throws on every spec — the model
the repository's own isValidCronExpression unit test installs. -/
def throwingScheduleJob : String → Except Unit Bool := fun _ => .error ()

/-- The scheduler state of the C4 scenario: profile p1 already holds a
live timer registered on "0 5 * * *". -/
def c4PriorState : SchedulerState :=
  { scheduledJobs := [("p1", "0 5 * * *")],
    resolvedCronExpressions := [("p1", "0 5 * * *")] }

/-- The profile store of the C4 scenario. -/
def c4Profiles : List SyncProfile :=
  [{ id := "p1", name := "Profile 1", enabled := true,
     scheduleCron := some "invalid" }]

/-- C4 counterexample: with the timer library behaving as node-schedule
documents (no throw, null Job for an unparsable spec), the validation
probe on "invalid" succeeds, so scheduleProfile cancels the prior p1
timer, overwrites the stored resolved expression with "invalid", and
only then fails — with the FailedToSchedule error, not InvalidCron: the
prior schedule is not left untouched. -/
theorem scheduleProfile_invalid_counterexample :
    isValidCronExpression nodeScheduleJob "invalid" = true
      ∧ (scheduleProfile nodeScheduleJob c4Profiles c4PriorState "p1" "invalid"
          (fun _ => 0) 0).1
          = Except.error (SchedulerError.failedToSchedule "p1")
      ∧ (scheduleProfile nodeScheduleJob c4Profiles c4PriorState "p1" "invalid"
          (fun _ => 0) 0).2.1.scheduledJobs = []
      ∧ lookupAssoc (scheduleProfile nodeScheduleJob c4Profiles c4PriorState "p1"
          "invalid" (fun _ => 0) 0).2.1.resolvedCronExpressions "p1"
          = some "invalid"
      ∧ lookupAssoc c4PriorState.scheduledJobs "p1" = some "0 5 * * *" := by
  decide

/-- C4 (amended): scheduleProfile on an expression the timer library
rejects raises an error in either library model, but it raises the
InvalidCron error and leaves the prior schedule untouched exactly when
the library signals rejection by throwing during the validation probe
(the behavior the repository's isValidCronExpression unit test mocks);
when the library instead returns no job without throwing —
node-schedule's documented behavior for an unparsable string — the
prior timer is cancelled before the failure (see the counterexample). -/
theorem scheduleProfile_invalid_throwing_leaves_state
    (scheduleJobFn : String → Except Unit Bool) (profiles : List SyncProfile)
    (st : SchedulerState) (profileId cronExpression : String)
    (rand : Nat → Nat) (k : Nat)
    (h : isValidCronExpression scheduleJobFn cronExpression = false) :
    scheduleProfile scheduleJobFn profiles st profileId cronExpression rand k
      = (Except.error (SchedulerError.invalidCron cronExpression), st, k) := by
  simp [scheduleProfile, h]

/-- Witness for the amended C4 theorem: a throwing library on the
expression "invalid" with a prior schedule in place. -/
theorem scheduleProfile_invalid_throwing_leaves_state_witness :
    isValidCronExpression throwingScheduleJob "invalid" = false
      ∧ scheduleProfile throwingScheduleJob c4Profiles c4PriorState "p1" "invalid"
          (fun _ => 0) 0
          = (Except.error (SchedulerError.invalidCron "invalid"), c4PriorState, 0) :=
  ⟨by decide,
   scheduleProfile_invalid_throwing_leaves_state throwingScheduleJob c4Profiles
     c4PriorState "p1" "invalid" (fun _ => 0) 0 (by decide)⟩

/-- One chunk arriving on an output stream of the child process. -/
inductive OutChunk where
  | stdout (text : String)
  | stderr (text : String)
  deriving DecidableEq, Repr

/-- The text carried by a chunk (prompt scanning treats both streams
identically). -/
def chunkText : OutChunk → String
  | .stdout t => t
  | .stderr t => t

/-- WithingsSyncRunner.INTERACTIVE_PROMPT_PATTERNS. -/
def INTERACTIVE_PROMPT_PATTERNS : List String :=
  ["User interaction needed to get Authentification Code from Withings!",
   "MFA code:",
   "Enter authentication code:",
   "Please enter the code:"]

/-- JS String.prototype.toLowerCase over the character list. -/
def lowerString (s : String) : String :=
  String.mk (s.data.map Char.toLower)

/-- Whether `pat` occurs at the head of the character list. -/
def leadsWith : List Char → List Char → Bool
  | [], _ => true
  | _ :: _, [] => false
  | a :: as, b :: bs => a == b && leadsWith as bs

/-- JS String.prototype.includes over character lists. -/
def containsChars (pat : List Char) : List Char → Bool
  | [] => leadsWith pat []
  | c :: rest => leadsWith pat (c :: rest) || containsChars pat rest

/-- JS `hay.includes(pat)`. -/
def strIncludes (hay pat : String) : Bool :=
  containsChars pat.data hay.data

/-- WithingsSyncRunner.detectInteractivePrompt: case-insensitive
containment of any of the fixed prompt patterns. -/
def detectInteractivePrompt (output : String) : Bool :=
  INTERACTIVE_PROMPT_PATTERNS.any (fun pattern =>
    strIncludes (lowerString output) (lowerString pattern))

/-- The RunResult interface of WithingsSyncRunner. -/
structure RunResult where
  success : Bool
  exitCode : Option Int
  errorMessage : Option String := none
  output : String := ""
  deriving DecidableEq, Repr

/-- The distinguished requires-interactive-re-authentication message. -/
def REAUTH_ERROR_MESSAGE : String :=
  "withings-sync requires re/authentication: please run interactively"

/-- The generic nonzero-exit failure message
(`Process exited with code N`, with `null` for a missing code). -/
def genericExitMessage (code : Option Int) : String :=
  "Process exited with code "
    ++ (match code with | some c => toString c | none => "null")

/-- WithingsSyncRunner.executeCli, resolved at the close event: the
output chunks seen on stdout/stderr, in order, and the close code.
In non-interactive mode a chunk matching an interactive prompt sets
`hasInteractivePrompt` and kills the child (the returned Bool records
whether the kill was issued); on close, a detected prompt resolves the
distinguished re-authentication failure regardless of the exit code,
code 0 resolves success, and anything else the generic failure.  The
timeout resolution path (which would race the close event) is outside
this model. -/
def executeCli (interactive : Bool) (chunks : List OutChunk)
    (code : Option Int) : RunResult × Bool :=
  let hasInteractivePrompt :=
    !interactive && chunks.any (fun c => detectInteractivePrompt (chunkText c))
  let output := String.join (chunks.map chunkText)
  (if hasInteractivePrompt then
     { success := false, exitCode := code,
       errorMessage := some REAUTH_ERROR_MESSAGE, output := output }
   else if code == some 0 then
     { success := true, exitCode := code, output := output }
   else
     { success := false, exitCode := code,
       errorMessage := some (genericExitMessage code), output := output },
   hasInteractivePrompt)

theorem append_data (a b : String) : (a ++ b).data = a.data ++ b.data := by
  cases a
  cases b
  rfl

theorem reauth_ne_generic (code : Option Int) :
    REAUTH_ERROR_MESSAGE ≠ genericExitMessage code := by
  have key : ∀ s : String,
      REAUTH_ERROR_MESSAGE ≠ "Process exited with code " ++ s := by
    intro s h
    have hd : REAUTH_ERROR_MESSAGE.data.head?
        = ("Process exited with code " ++ s).data.head? := by rw [h]
    rw [append_data] at hd
    have h2 : ("Process exited with code ".data ++ s.data).head? = some 'P' := by
      have h4 : "Process exited with code ".data
          = 'P' :: "rocess exited with code ".data := by decide
      rw [h4]
      rfl
    rw [h2] at hd
    have h3 : REAUTH_ERROR_MESSAGE.data.head? = some 'w' := by decide
    rw [h3] at hd
    exact absurd hd (by decide)
  cases code with
  | none => exact key "null"
  | some c => exact key (toString c)

/-- C5: for every unattended execution whose stdout or stderr contains
a chunk matching one of the interactive-prompt patterns, the child is
killed and the run resolves to the distinguished
requires-interactive-re-authentication failure — never to the generic
nonzero-exit failure. -/
theorem unattended_prompt_resolves_reauth (chunks : List OutChunk)
    (code : Option Int) (c : OutChunk) (hc : c ∈ chunks)
    (hdet : detectInteractivePrompt (chunkText c) = true) :
    (executeCli false chunks code).2 = true
      ∧ (executeCli false chunks code).1.success = false
      ∧ (executeCli false chunks code).1.errorMessage
          = some REAUTH_ERROR_MESSAGE
      ∧ (executeCli false chunks code).1.errorMessage
          ≠ some (genericExitMessage code) := by
  have hany : chunks.any (fun c => detectInteractivePrompt (chunkText c)) = true :=
    List.any_eq_true.mpr ⟨c, hc, hdet⟩
  refine ⟨?_, ?_, ?_, ?_⟩
  · simp [executeCli, hany]
  · simp [executeCli, hany]
  · simp [executeCli, hany]
  · simp only [executeCli, hany, Bool.not_false, Bool.true_and, if_true]
    intro hbad
    exact reauth_ne_generic code (Option.some.inj hbad)

/-- Witness for C5: a stdout chunk containing "MFA code:" with a
nonzero exit code. -/
theorem unattended_prompt_resolves_reauth_witness :
    detectInteractivePrompt "Please enter MFA code: " = true
      ∧ (executeCli false [OutChunk.stdout "Please enter MFA code: "] (some 3)).2
          = true
      ∧ (executeCli false [OutChunk.stdout "Please enter MFA code: "]
            (some 3)).1.errorMessage = some REAUTH_ERROR_MESSAGE :=
  ⟨by decide,
   (unattended_prompt_resolves_reauth [OutChunk.stdout "Please enter MFA code: "]
      (some 3) (OutChunk.stdout "Please enter MFA code: ") (by decide)
      (by decide)).1,
   (unattended_prompt_resolves_reauth [OutChunk.stdout "Please enter MFA code: "]
      (some 3) (OutChunk.stdout "Please enter MFA code: ") (by decide)
      (by decide)).2.2.1⟩

/-- A live child process: what has been written to its stdin, whether
it was killed, and whether its stdin stream exists. -/
structure Proc where
  stdinWrites : List String
  killed : Bool
  stdinAvailable : Bool
  deriving DecidableEq, Repr

/-- WithingsSyncRunner state: the pool of spawned OS processes (which
outlive any registry entry) and the `runningProcesses` registry mapping
a run id to its process. -/
structure RunnerState where
  procs : List Proc
  runningProcesses : List (String × Nat)
  deriving DecidableEq, Repr

/-- WithingsSyncRunner.sendInput: writes `input + newline` to the
registered process's stdin; a silent no-op when no process is
registered for the run id or its stdin is missing (and a write error is
swallowed). -/
def sendInput (st : RunnerState) (runId sessionId input : String) :
    RunnerState :=
  match lookupAssoc st.runningProcesses runId with
  | none => st
  | some i =>
    match st.procs.get? i with
    | none => st
    | some p =>
      if p.stdinAvailable then
        let p2 := { p with stdinWrites := p.stdinWrites ++ [input ++ "\n"] }
        { st with procs := st.procs.set i p2 }
      else st

/-- WithingsSyncRunner.detachRun: removes the registry entry only; the
process itself is neither killed nor otherwise touched. -/
def detachRun (st : RunnerState) (runId : String) : RunnerState :=
  { st with runningProcesses := removeAssoc st.runningProcesses runId }

/-- WithingsSyncRunner.killRun: SIGTERMs the registered process and
removes the registry entry. -/
def killRun (st : RunnerState) (runId : String) : RunnerState :=
  match lookupAssoc st.runningProcesses runId with
  | none => st
  | some i =>
    { st with
      procs := (match st.procs.get? i with
        | some p => st.procs.set i ({ p with killed := true })
        | none => st.procs),
      runningProcesses := removeAssoc st.runningProcesses runId }

/-- WebSocketHandler state: activeSessions maps a session id to its run
id (the keepalive timer and connection handle carry no further state
here). -/
structure WsState where
  activeSessions : List (String × String)
  deriving DecidableEq, Repr

/-- WebSocketHandler.handleConnectionClose: clears the keepalive,
detaches the run from the process registry and removes the session.
It never calls into the Run Ledger and never kills the process. -/
def handleConnectionClose (ws : WsState) (runner : RunnerState)
    (ledger : RunServiceState) (sessionId : String) :
    WsState × RunnerState × RunServiceState :=
  match lookupAssoc ws.activeSessions sessionId with
  | none => (ws, runner, ledger)
  | some runId =>
      ({ activeSessions := removeAssoc ws.activeSessions sessionId },
       detachRun runner runId, ledger)

theorem lookupAssoc_removeAssoc_self {α : Type} (l : List (String × α))
    (k : String) : lookupAssoc (removeAssoc l k) k = none := by
  induction l with
  | nil => rfl
  | cons p rest ih =>
    by_cases h : p.1 = k
    · simp only [removeAssoc] at ih ⊢
      simp [h, ih]
    · have h2 : ¬ k = p.1 := fun hc => h hc.symm
      simp only [removeAssoc] at ih ⊢
      simp [lookupAssoc, h, h2, ih]

/-- C7: remote disconnect detaches without side effects on the Run
Ledger — the Run's status (in particular RUNNING) is untouched — the
process pool is untouched (nothing is killed), the run's registry entry
is gone, and every subsequent sendInput for that run id is a no-op that
writes nothing and cannot throw (sendInput is total). -/
theorem detach_keeps_run_and_drops_input (ws : WsState) (runner : RunnerState)
    (ledger : RunServiceState) (sessionId : String) :
    ((handleConnectionClose ws runner ledger sessionId).2.2 = ledger)
      ∧ ((handleConnectionClose ws runner ledger sessionId).2.1.procs
          = runner.procs)
      ∧ (∀ runId, lookupAssoc ws.activeSessions sessionId = some runId →
          lookupAssoc
              (handleConnectionClose ws runner ledger sessionId).2.1.runningProcesses
              runId = none
            ∧ ∀ sid input : String,
                sendInput (handleConnectionClose ws runner ledger sessionId).2.1
                    runId sid input
                  = (handleConnectionClose ws runner ledger sessionId).2.1) := by
  cases hl : lookupAssoc ws.activeSessions sessionId with
  | none => simp [handleConnectionClose, hl]
  | some runId0 =>
    simp only [handleConnectionClose, hl]
    refine ⟨by trivial, by trivial, ?_⟩
    intro runId h
    have hid : runId0 = runId := Option.some.inj h
    subst hid
    constructor
    · exact lookupAssoc_removeAssoc_self runner.runningProcesses runId0
    · intro sid input
      simp [sendInput, detachRun, lookupAssoc_removeAssoc_self]

/-- Witness for C7 at a concrete attached session. -/
theorem detach_keeps_run_and_drops_input_witness :
    ((handleConnectionClose { activeSessions := [("s1", "r1")] }
        { procs := [{ stdinWrites := [], killed := false, stdinAvailable := true }],
          runningProcesses := [("r1", 0)] }
        c2WitnessState "s1").2.2 = c2WitnessState)
      ∧ lookupAssoc ((handleConnectionClose { activeSessions := [("s1", "r1")] }
          { procs := [{ stdinWrites := [], killed := false, stdinAvailable := true }],
            runningProcesses := [("r1", 0)] }
          c2WitnessState "s1").2.1).runningProcesses "r1" = none
      ∧ sendInput ((handleConnectionClose { activeSessions := [("s1", "r1")] }
          { procs := [{ stdinWrites := [], killed := false, stdinAvailable := true }],
            runningProcesses := [("r1", 0)] }
          c2WitnessState "s1").2.1) "r1" "s1" "123456"
          = ((handleConnectionClose { activeSessions := [("s1", "r1")] }
          { procs := [{ stdinWrites := [], killed := false, stdinAvailable := true }],
            runningProcesses := [("r1", 0)] }
          c2WitnessState "s1").2.1) :=
  ⟨(detach_keeps_run_and_drops_input { activeSessions := [("s1", "r1")] }
      { procs := [{ stdinWrites := [], killed := false, stdinAvailable := true }],
        runningProcesses := [("r1", 0)] } c2WitnessState "s1").1,
   ((detach_keeps_run_and_drops_input { activeSessions := [("s1", "r1")] }
      { procs := [{ stdinWrites := [], killed := false, stdinAvailable := true }],
        runningProcesses := [("r1", 0)] } c2WitnessState "s1").2.2 "r1"
      (by decide)).1,
   ((detach_keeps_run_and_drops_input { activeSessions := [("s1", "r1")] }
      { procs := [{ stdinWrites := [], killed := false, stdinAvailable := true }],
        runningProcesses := [("r1", 0)] } c2WitnessState "s1").2.2 "r1"
      (by decide)).2 "s1" "123456"⟩

/-- A ServiceAccount row (username and encrypted password). -/
structure ServiceAccount where
  username : String
  passwordEncrypted : String
  deriving DecidableEq, Repr

/-- WithingsSyncRunner.CLI_ARGS constants used by buildCliArgs. -/
def CONFIG_FOLDER_FLAG : String := "--config-folder"

def GARMIN_USERNAME_FLAG : String := "--garmin-username"

def GARMIN_PASSWORD_FLAG : String := "--garmin-password"

def TRAINERROAD_USERNAME_FLAG : String := "--trainerroad-username"

def TRAINERROAD_PASSWORD_FLAG : String := "--trainerroad-password"

def FEATURES_FLAG : String := "--features"

def VERBOSE_FLAG : String := "--verbose"

def SILENT_FLAG : String := "--silent"

/-- The log levels a run can request. -/
inductive LogLevel where
  | debug
  | info
  | warn
  | error
  deriving DecidableEq, Repr

/-- WithingsSyncRunner.buildCliArgs: config folder first, then
username/password per configured service account (the prisma account
lookup is modelled by the Option argument; `decrypt` models
CryptoService.decrypt applied immediately before use), then the
feature flag, then the verbosity flag derived from the log level. -/
def buildCliArgs (decrypt : String → String) (withingsConfigDir : String)
    (garminAccount trainerroadAccount : Option ServiceAccount)
    (enableBloodPressure : Bool) (logLevel : LogLevel) : List String :=
  [CONFIG_FOLDER_FLAG, withingsConfigDir]
    ++ (match garminAccount with
        | some acc => [GARMIN_USERNAME_FLAG, acc.username,
                       GARMIN_PASSWORD_FLAG, decrypt acc.passwordEncrypted]
        | none => [])
    ++ (match trainerroadAccount with
        | some acc => [TRAINERROAD_USERNAME_FLAG, acc.username,
                       TRAINERROAD_PASSWORD_FLAG, decrypt acc.passwordEncrypted]
        | none => [])
    ++ (if enableBloodPressure then [FEATURES_FLAG, "BLOOD_PRESSURE"] else [])
    ++ (match logLevel with
        | .debug => [VERBOSE_FLAG]
        | .warn => [SILENT_FLAG]
        | .error => [SILENT_FLAG]
        | .info => [])

/-- The `[GARMIN_PASSWORD, TRAINERROAD_PASSWORD].includes(args[index-1])`
test of the safeArgs mapper. -/
def isPasswordFlag (s : String) : Bool :=
  s == GARMIN_PASSWORD_FLAG || s == TRAINERROAD_PASSWORD_FLAG

/-- The replacement the log mapper writes over a password argument. -/
def MASKED : String := "***MASKED***"

/-- The tail of the safeArgs mapper: each element is masked when the
element before it (in the original vector) is a password flag. -/
def maskTail (prev : String) : List String → List String
  | [] => []
  | a :: rest => (if isPasswordFlag prev then MASKED else a) :: maskTail a rest

/-- The safeArgs mapper of WithingsSyncRunner.runSync: index 0 is kept,
every later element is masked iff the original previous element is a
password flag. -/
def safeArgs : List String → List String
  | [] => []
  | a :: rest => a :: maskTail a rest

theorem maskTail_get_succ (prev : String) (l : List String) (i : Nat)
    (f a : String) (hf : l.get? i = some f) (hflag : isPasswordFlag f = true)
    (ha : l.get? (i+1) = some a) :
    (maskTail prev l).get? (i+1) = some MASKED := by
  induction l generalizing prev i with
  | nil => simp at hf
  | cons x xs ih =>
    cases i with
    | zero =>
      have hx : x = f := by simpa using hf
      subst hx
      cases xs with
      | nil => simp at ha
      | cons y ys => simp [maskTail, hflag]
    | succ j =>
      simp only [List.get?] at hf ha ⊢
      exact ih x j hf ha

/-- C8 counterexample: with all other profile data equal, a garmin
password that decrypts to the literal string "--trainerroad-password"
produces a different logged argument vector than the password "hunter2"
— the element after the password value is masked in one log and not the
other — so the logged command is not independent of the password
plaintexts. -/
theorem safeArgs_password_noninterference_counterexample :
    safeArgs (buildCliArgs (fun _ => "--trainerroad-password") "/cfg"
        (some { username := "alice", passwordEncrypted := "ct" }) none true
        LogLevel.info)
        ≠ safeArgs (buildCliArgs (fun _ => "hunter2") "/cfg"
            (some { username := "alice", passwordEncrypted := "ct" }) none true
            LogLevel.info)
      ∧ safeArgs (buildCliArgs (fun _ => "--trainerroad-password") "/cfg"
          (some { username := "alice", passwordEncrypted := "ct" }) none true
          LogLevel.info)
          = ["--config-folder", "/cfg", "--garmin-username", "alice",
             "--garmin-password", "***MASKED***", "***MASKED***",
             "BLOOD_PRESSURE"]
      ∧ safeArgs (buildCliArgs (fun _ => "hunter2") "/cfg"
          (some { username := "alice", passwordEncrypted := "ct" }) none true
          LogLevel.info)
          = ["--config-folder", "/cfg", "--garmin-username", "alice",
             "--garmin-password", "***MASKED***", "--features",
             "BLOOD_PRESSURE"] := by
  refine ⟨?_, by decide, by decide⟩
  decide

/-- C8 (amended): in the logged vector every argument immediately
following an occurrence of a password flag is "***MASKED***" (in
particular the decrypted password itself never appears at a password
position), and the logged vector is identical for any two password
plaintexts provided neither plaintext is itself one of the two
password-flag strings; without that proviso the masking cascade makes
the log differ (see the counterexample). -/
theorem safeArgs_masks_passwords (d1 d2 : String → String)
    (withingsConfigDir : String)
    (garminAccount trainerroadAccount : Option ServiceAccount)
    (enableBloodPressure : Bool) (logLevel : LogLevel)
    (hg : ∀ acc, garminAccount = some acc →
        isPasswordFlag (d1 acc.passwordEncrypted) = false
          ∧ isPasswordFlag (d2 acc.passwordEncrypted) = false)
    (ht : ∀ acc, trainerroadAccount = some acc →
        isPasswordFlag (d1 acc.passwordEncrypted) = false
          ∧ isPasswordFlag (d2 acc.passwordEncrypted) = false) :
    (∀ (args : List String) (i : Nat) (f a : String),
        args.get? i = some f → isPasswordFlag f = true →
        args.get? (i+1) = some a →
        (safeArgs args).get? (i+1) = some MASKED)
      ∧ safeArgs (buildCliArgs d1 withingsConfigDir garminAccount
            trainerroadAccount enableBloodPressure logLevel)
          = safeArgs (buildCliArgs d2 withingsConfigDir garminAccount
            trainerroadAccount enableBloodPressure logLevel) := by
  constructor
  · intro args i f a hf hflag ha
    cases args with
    | nil => simp at hf
    | cons x xs =>
      cases i with
      | zero =>
        have hx : x = f := by simpa using hf
        subst hx
        cases xs with
        | nil => simp at ha
        | cons y ys => simp [safeArgs, maskTail, hflag]
      | succ j =>
        simp only [List.get?] at hf ha
        show (x :: maskTail x xs).get? (j + 1 + 1) = some MASKED
        simp only [List.get?]
        exact maskTail_get_succ x xs j f a hf hflag ha
  · have e1 : isPasswordFlag GARMIN_PASSWORD_FLAG = true := by decide
    have e2 : isPasswordFlag TRAINERROAD_PASSWORD_FLAG = true := by decide
    have e3 : isPasswordFlag FEATURES_FLAG = false := by decide
    have e4 : isPasswordFlag VERBOSE_FLAG = false := by decide
    have e5 : isPasswordFlag SILENT_FLAG = false := by decide
    have e6 : isPasswordFlag TRAINERROAD_USERNAME_FLAG = false := by decide
    cases garminAccount with
    | none =>
      cases trainerroadAccount with
      | none => rfl
      | some ta =>
        rcases ht ta rfl with ⟨ht1, ht2⟩
        cases enableBloodPressure <;> cases logLevel <;>
          simp [buildCliArgs, safeArgs, maskTail, e1, e2, e3, e4, e5, e6,
            ht1, ht2]
    | some ga =>
      rcases hg ga rfl with ⟨hg1, hg2⟩
      cases trainerroadAccount with
      | none =>
        cases enableBloodPressure <;> cases logLevel <;>
          simp [buildCliArgs, safeArgs, maskTail, e1, e2, e3, e4, e5, e6,
            hg1, hg2]
      | some ta =>
        rcases ht ta rfl with ⟨ht1, ht2⟩
        cases enableBloodPressure <;> cases logLevel <;>
          simp [buildCliArgs, safeArgs, maskTail, e1, e2, e3, e4, e5, e6,
            hg1, hg2, ht1, ht2]

/-- Witness for the amended C8 theorem: two ordinary passwords give the
same masked log. -/
theorem safeArgs_masks_passwords_witness :
    safeArgs (buildCliArgs (fun _ => "pw-one") "/cfg"
        (some { username := "alice", passwordEncrypted := "ct" }) none false
        LogLevel.debug)
      = safeArgs (buildCliArgs (fun _ => "pw-two") "/cfg"
        (some { username := "alice", passwordEncrypted := "ct" }) none false
        LogLevel.debug) :=
  (safeArgs_masks_passwords (fun _ => "pw-one") (fun _ => "pw-two") "/cfg"
    (some { username := "alice", passwordEncrypted := "ct" }) none false
    LogLevel.debug
    (fun acc h => by cases h; exact ⟨by decide, by decide⟩)
    (fun acc h => by cases h)).2

end WithingsSyncUI
